import Mathlib

/-!
Verification of the opengb server message bus (`opengb/server.py`).

The Python module is embedded shallowly:

* Python/JSON values are `PyVal`; a Python `dict` is an association list
  of string keys (keys of a real dict, and of a decoded JSON object, are
  unique, so first-match lookup agrees with Python lookup).
* Python exceptions are `PyErr`; a computation that can raise is an
  `Except PyErr` value, and an `except SomeError` clause is a `match` on
  the error constructor.
* Side effects that the claims observe (messages put on the outbound
  queue, `LOGGER` calls, websocket sends, invocation of the reducer) are
  returned explicitly: log calls as counters, sends and reducer
  invocations as an ordered `Action` trace.

Each function keeps the name it has in `server.py`.
-/

set_option autoImplicit false

namespace Opengb

/-- Python/JSON values as they occur on the opengb queues: `None`, booleans,
numbers (the claims never depend on fractional arithmetic, so numbers are
modelled as integers), strings, lists and dicts. -/
inductive PyVal where
  | none
  | bool (b : Bool)
  | int (n : Int)
  | str (s : String)
  | list (xs : List PyVal)
  | dict (entries : List (String × PyVal))

/-- The Python exception classes the server code can meet: `KeyError` from a
missing dict key, `ValueError` from `json.loads` on a non-JSON string or from
an invalid enum value, `TypeError` from indexing a non-dict or from
`json.loads` on a non-string, and `otherError` for anything else (for example
a failed websocket send). -/
inductive PyErr where
  | keyError
  | valueError
  | typeError
  | otherError
deriving DecidableEq

/-- Lookup in a Python dict modelled as an association list. -/
def dictLookup : List (String × PyVal) → String → Option PyVal
  | [], _ => Option.none
  | (k, v) :: rest, key => if k = key then Option.some v else dictLookup rest key

/-- Python subscription `v[key]` with a string key: returns the value for
`key` when `v` is a dict containing it, raises `KeyError` when `v` is a dict
without it, and raises `TypeError` when `v` is not a dict. -/
def getItem (v : PyVal) (key : String) : Except PyErr PyVal :=
  match v with
  | .dict entries =>
    match dictLookup entries key with
    | Option.some x => Except.ok x
    | Option.none => Except.error PyErr.keyError
  | _ => Except.error PyErr.typeError

/-- Python equality test of a value against a string literal, as in
`event['method'] == 'state'`: true exactly when the value is that string. -/
def isStr (v : PyVal) (s : String) : Bool :=
  match v with
  | .str t => t = s
  | _ => false

/-- Whether a value is numeric (an int in this model); the `None` marker used
by `set_temp` for omitted temperatures is not. -/
def isNumeric : PyVal → Bool
  | .int _ => true
  | _ => false

/-- Modelled from the spec: the `State` enum of `opengb.printer`, whose source
file is not part of the given material. The spec lists the lifecycle phases
DISCONNECTED, READY, PRINTING, PAUSED, ERROR and shows a `state` event carry
the lowercase phase name in `params.new`. -/
inductive State where
  | disconnected
  | ready
  | printing
  | paused
  | error
deriving DecidableEq

/-- Modelled from the spec: the Python enum call `State(value)`, which yields
the member for a valid enum value and raises `ValueError` for any other
value. -/
def State.ofVal (v : PyVal) : Except PyErr State :=
  match v with
  | .str "disconnected" => Except.ok State.disconnected
  | .str "ready" => Except.ok State.ready
  | .str "printing" => Except.ok State.printing
  | .str "paused" => Except.ok State.paused
  | .str "error" => Except.ok State.error
  | _ => Except.error PyErr.valueError

/-- The local cache of printer state, the `PRINTER` dict of `server.py`:
`state` holds a `State` member, while `temp` and `progress` hold whatever
dict (or other value) the last matching event assigned. -/
structure Snapshot where
  state : State
  temp : PyVal
  progress : PyVal

/-- The initial value of the `PRINTER` cache in `server.py`. -/
def PRINTER : Snapshot where
  state := State.disconnected
  temp := PyVal.dict [("bed", PyVal.int 0), ("nozzle1", PyVal.int 0), ("nozzle2", PyVal.int 0)]
  progress := PyVal.dict [("current", PyVal.int 0), ("total", PyVal.int 0)]

/-- A websocket client session as registered in `CLIENTS`: an identity, and
whether its `write_message` raises (the connection has dropped). -/
structure Session where
  id : Nat
  sendFails : Bool
deriving DecidableEq

/-- Observable actions of one poll-loop tick, in order of occurrence. -/
inductive Action where
  | sink (level msg : PyVal)
  | send (sid : Nat) (msg : PyVal)
  | reduce (e : PyVal)

/-- Whether an action is a forward to the logging sink. -/
def Action.isSink : Action → Bool
  | .sink _ _ => true
  | _ => false

/-- A session's `write_message`: succeeds, or raises when the connection has
dropped (tornado raises `WebSocketClosedError`, which is neither a `KeyError`
nor a `TypeError`). -/
def write_message (s : Session) : Except PyErr Unit :=
  if s.sendFails then Except.error PyErr.otherError else Except.ok ()

/-- The `broadcast_message` function of `server.py`: iterate over the
registered clients in order and call `write_message` on each. There is no
exception handling in its body, so the first failing send raises out of the
loop. The result is the ordered list of delivered sends and the escaping
exception, if any; the registry itself is never modified. -/
def broadcast_message (clients : List Session) (message : PyVal) :
    List Action × Option PyErr :=
  match clients with
  | [] => ([], Option.none)
  | s :: rest =>
    match write_message s with
    | Except.error e => ([], Option.some e)
    | Except.ok _ =>
      let r := broadcast_message rest message
      (Action.send s.id message :: r.1, r.2)

/-- Python keyword-argument passing for a parameter declared `arg=None`:
an omitted argument takes the value `None`. -/
def pyDefault (o : Option PyVal) : PyVal :=
  o.getD PyVal.none

/-- The `MessageHandler.set_temp` method: unconditionally put one
`{method: "set_temp", params: {bed, nozzle1, nozzle2}}` message on the
`TO_PRINTER` queue with the three argument values as given (omitted ones
having already defaulted to `None`), and return `True`. -/
def set_temp (toPrinter : List PyVal) (bed nozzle1 nozzle2 : PyVal) :
    List PyVal × Bool :=
  (toPrinter ++
    [PyVal.dict [("method", PyVal.str "set_temp"),
      ("params", PyVal.dict
        [("bed", bed), ("nozzle1", nozzle1), ("nozzle2", nozzle2)])]],
   true)

/-- Result of `process_event`: the snapshot after the call, the number of
`LOGGER.error` diagnostics recorded, and the exception escaping the call,
if any. -/
structure PEResult where
  printer : Snapshot
  errorLogs : Nat
  exc : Option PyErr

/-- The body of the `try` block of `process_event`, exactly as in
`server.py`: dispatch on `event['method']`; `state` parses
`event['params']['new']` through the `State` enum, `temp` and `progress`
assign `event['params']` to the corresponding `PRINTER` field wholesale,
`zchange` is an explicit no-op, and any other method falls through the
`elif` chain untouched. Every snapshot assignment is the last step of its
branch, so on an error the snapshot is unchanged. -/
def process_event_body (printer : Snapshot) (event : PyVal) :
    Except PyErr Snapshot :=
  match getItem event "method" with
  | Except.error e => Except.error e
  | Except.ok m =>
    if isStr m "state" then
      match getItem event "params" with
      | Except.error e => Except.error e
      | Except.ok ps =>
        match getItem ps "new" with
        | Except.error e => Except.error e
        | Except.ok n =>
          match State.ofVal n with
          | Except.error e => Except.error e
          | Except.ok st => Except.ok { printer with state := st }
    else if isStr m "temp" then
      match getItem event "params" with
      | Except.error e => Except.error e
      | Except.ok ps => Except.ok { printer with temp := ps }
    else if isStr m "progress" then
      match getItem event "params" with
      | Except.error e => Except.error e
      | Except.ok ps => Except.ok { printer with progress := ps }
    else if isStr m "zchange" then
      Except.ok printer
    else
      Except.ok printer

/-- The `process_event` function of `server.py`: run the body under
`except KeyError`, which records one `LOGGER.error` diagnostic (formatting
the raw event) and swallows the error; any other exception escapes. -/
def process_event (printer : Snapshot) (event : PyVal) : PEResult :=
  match process_event_body printer event with
  | Except.ok p => ⟨p, 0, Option.none⟩
  | Except.error PyErr.keyError => ⟨printer, 1, Option.none⟩
  | Except.error e => ⟨printer, 0, Option.some e⟩

/-- One raw item taken off the `FROM_PRINTER` queue: a string that decodes
to the JSON value `v`, a string that is not valid JSON, or an item that is
not a string at all. -/
inductive RawMsg where
  | json (v : PyVal)
  | notJson
  | notString

/-- Behavioural model of the standard-library call `json.loads` on a queue
item: a valid JSON string yields its value, an invalid JSON string raises
`json.JSONDecodeError`, a subclass of `ValueError`, and a non-string item
raises `TypeError`. -/
def json_loads : RawMsg → Except PyErr PyVal
  | .json v => Except.ok v
  | .notJson => Except.error PyErr.valueError
  | .notString => Except.error PyErr.typeError

/-- Result of one `process_printer_events` tick: the snapshot after the
tick, the remaining queue, the ordered trace of sink forwards, session sends
and reducer invocations, the number of `LOGGER.error` diagnostics (from
inside `process_event`), the number of `LOGGER.exception` diagnostics (from
the tick's own `except TypeError` clause), and the exception escaping the
tick, if any. -/
structure TickResult where
  printer : Snapshot
  queue : List RawMsg
  trace : List Action
  errorLogs : Nat
  excLogs : Nat
  exc : Option PyErr

/-- The `process_printer_events` function of `server.py`, one periodic tick:
if the `FROM_PRINTER` queue is non-empty, take exactly one item and, inside
a `try` block whose only handler is `except TypeError` (which records one
`LOGGER.exception` diagnostic), decode it with `json.loads`; if
`event['method'] == 'log'`, forward `event['params']['level']` and
`event['params']['msg']` to the logging sink; otherwise call
`broadcast_message(event)` and then `process_event(event)`. Any escaping
exception that is not a `TypeError` escapes the tick. -/
def process_printer_events (clients : List Session) (printer : Snapshot)
    (fromPrinter : List RawMsg) : TickResult :=
  match fromPrinter with
  | [] => ⟨printer, [], [], 0, 0, Option.none⟩
  | raw :: rest =>
    match json_loads raw with
    | Except.error PyErr.typeError => ⟨printer, rest, [], 0, 1, Option.none⟩
    | Except.error e => ⟨printer, rest, [], 0, 0, Option.some e⟩
    | Except.ok event =>
      match getItem event "method" with
      | Except.error PyErr.typeError => ⟨printer, rest, [], 0, 1, Option.none⟩
      | Except.error e => ⟨printer, rest, [], 0, 0, Option.some e⟩
      | Except.ok m =>
        if isStr m "log" then
          match getItem event "params" with
          | Except.error PyErr.typeError => ⟨printer, rest, [], 0, 1, Option.none⟩
          | Except.error e => ⟨printer, rest, [], 0, 0, Option.some e⟩
          | Except.ok ps =>
            match getItem ps "level" with
            | Except.error PyErr.typeError => ⟨printer, rest, [], 0, 1, Option.none⟩
            | Except.error e => ⟨printer, rest, [], 0, 0, Option.some e⟩
            | Except.ok level =>
              match getItem ps "msg" with
              | Except.error PyErr.typeError => ⟨printer, rest, [], 0, 1, Option.none⟩
              | Except.error e => ⟨printer, rest, [], 0, 0, Option.some e⟩
              | Except.ok msg =>
                ⟨printer, rest, [Action.sink level msg], 0, 0, Option.none⟩
        else
          let b := broadcast_message clients event
          match b.2 with
          | Option.some PyErr.typeError => ⟨printer, rest, b.1, 0, 1, Option.none⟩
          | Option.some e => ⟨printer, rest, b.1, 0, 0, Option.some e⟩
          | Option.none =>
            let r := process_event printer event
            match r.exc with
            | Option.some PyErr.typeError =>
              ⟨r.printer, rest, b.1 ++ [Action.reduce event], r.errorLogs, 1, Option.none⟩
            | Option.some e =>
              ⟨r.printer, rest, b.1 ++ [Action.reduce event], r.errorLogs, 0, Option.some e⟩
            | Option.none =>
              ⟨r.printer, rest, b.1 ++ [Action.reduce event], r.errorLogs, 0, Option.none⟩

/-- Folding a whole sequence of already-decoded events through the reducer,
keeping the snapshot each call leaves behind (escaping exceptions leave the
snapshot unchanged, which is what the reducer's caller observes). -/
def process_events (printer : Snapshot) (events : List PyVal) : Snapshot :=
  events.foldl (fun p e => (process_event p e).printer) printer

/-- The progress invariant stated by the spec, read off a `progress` value:
whenever the value is a dict with integer `current` and `total` fields and
`total > 0`, then `current ≤ total`. Values of any other shape carry no
counters, so the condition is vacuously true of them. -/
def progressOk (p : PyVal) : Bool :=
  match p with
  | .dict entries =>
    match dictLookup entries "current", dictLookup entries "total" with
    | Option.some (PyVal.int c), Option.some (PyVal.int t) =>
      if 0 < t then decide (c ≤ t) else true
    | _, _ => true
  | _ => true

/-- Behavioural model of the Python call `CLIENTS.remove(session)` inside
`WebSocketHandler.on_close`: remove the first occurrence of the session from
the list, or raise `ValueError` when it is not present (in which case the
list is not modified). -/
def list_remove (xs : List Session) (s : Session) : Except PyErr (List Session) :=
  match xs with
  | [] => Except.error PyErr.valueError
  | x :: rest =>
    if x = s then Except.ok rest
    else
      match list_remove rest s with
      | Except.error e => Except.error e
      | Except.ok r => Except.ok (x :: r)

/-- The `WebSocketHandler.on_close` handler of `server.py`: after a log line,
its whole effect on the registry is `CLIENTS.remove(self)`. -/
def on_close (clients : List Session) (s : Session) : Except PyErr (List Session) :=
  list_remove clients s

/-- A well-formed `state` event carrying `n` in `params.new`. -/
def stateEvent (n : PyVal) : PyVal :=
  PyVal.dict [("method", PyVal.str "state"), ("params", PyVal.dict [("new", n)])]

/-- A `temp` event carrying `ps` as its params. -/
def tempEvent (ps : PyVal) : PyVal :=
  PyVal.dict [("method", PyVal.str "temp"), ("params", ps)]

/-- A `progress` event carrying `ps` as its params. -/
def progressEvent (ps : PyVal) : PyVal :=
  PyVal.dict [("method", PyVal.str "progress"), ("params", ps)]

/-- A healthy session used in concrete scenarios. -/
def sess0 : Session := ⟨0, false⟩

/-- A second healthy session used in concrete scenarios. -/
def sess1 : Session := ⟨1, false⟩

/-- A session whose connection has dropped, so its send raises. -/
def sessFail : Session := ⟨2, true⟩

/-- A well-formed `log` event carrying a level and a message. -/
def logEvent : PyVal :=
  PyVal.dict [("method", PyVal.str "log"),
    ("params", PyVal.dict [("level", PyVal.int 20), ("msg", PyVal.str "homing")])]

/-- C1: every call to `set_temp` appends exactly one
`{method: "set_temp", params: {bed, nozzle1, nozzle2}}` message to the
outbound queue, carrying the provided values for specified parameters and,
for each omitted parameter, the Python default `None`, which is an explicit
non-numeric marker; the call returns `True`. -/
theorem set_temp_emits_one_message_with_markers (q : List PyVal)
    (b n1 n2 : Option PyVal) :
    set_temp q (pyDefault b) (pyDefault n1) (pyDefault n2) =
      (q ++ [PyVal.dict [("method", PyVal.str "set_temp"),
        ("params", PyVal.dict [("bed", pyDefault b), ("nozzle1", pyDefault n1),
          ("nozzle2", pyDefault n2)])]], true) ∧
    pyDefault Option.none = PyVal.none ∧
    isNumeric PyVal.none = false :=
  ⟨rfl, rfl, rfl⟩

/-- C2: a `state` event whose params lack the required `new` key, and
likewise a `state` event with no `params` at all, make `process_event`
record exactly one diagnostic and return with the snapshot unchanged and no
escaping exception: the `KeyError` is caught at the reducer's boundary. -/
theorem process_event_missing_key_logged (snap : Snapshot)
    (ps : List (String × PyVal)) (h : dictLookup ps "new" = Option.none) :
    process_event snap
      (PyVal.dict [("method", PyVal.str "state"), ("params", PyVal.dict ps)]) =
      ⟨snap, 1, Option.none⟩ ∧
    process_event snap (PyVal.dict [("method", PyVal.str "state")]) =
      ⟨snap, 1, Option.none⟩ := by
  constructor
  · simp [process_event, process_event_body, getItem, dictLookup, isStr, h]
  · rfl

/-- Witness for C2 at a concrete malformed event. -/
theorem process_event_missing_key_logged_witness :
    process_event PRINTER (PyVal.dict [("method", PyVal.str "state"),
      ("params", PyVal.dict [("old", PyVal.str "ready")])]) =
      ⟨PRINTER, 1, Option.none⟩ ∧
    process_event PRINTER (PyVal.dict [("method", PyVal.str "state")]) =
      ⟨PRINTER, 1, Option.none⟩ :=
  process_event_missing_key_logged PRINTER [("old", PyVal.str "ready")] rfl

/-- C6: a `temp` event replaces the snapshot's `temp` field wholesale with
the event's params and a `progress` event replaces the `progress` field
wholesale, each leaving the other two fields unchanged, with no diagnostic
and no escaping exception. -/
theorem process_event_temp_progress_wholesale (snap : Snapshot) (ps : PyVal) :
    process_event snap (tempEvent ps) =
      ⟨⟨snap.state, ps, snap.progress⟩, 0, Option.none⟩ ∧
    process_event snap (progressEvent ps) =
      ⟨⟨snap.state, snap.temp, ps⟩, 0, Option.none⟩ :=
  ⟨rfl, rfl⟩

/-- C10: an event whose method is none of `state`, `temp` or `progress`
(this includes `zchange` and any unknown method) makes `process_event`
return normally with every snapshot field unchanged and no diagnostic. -/
theorem process_event_other_method_noop (snap : Snapshot) (event m : PyVal)
    (hm : getItem event "method" = Except.ok m)
    (h1 : isStr m "state" = false) (h2 : isStr m "temp" = false)
    (h3 : isStr m "progress" = false) :
    process_event snap event = ⟨snap, 0, Option.none⟩ := by
  simp [process_event, process_event_body, hm, h1, h2, h3]

/-- Witness for C10 at a concrete `zchange` event. -/
theorem process_event_other_method_noop_witness :
    process_event PRINTER (PyVal.dict [("method", PyVal.str "zchange"),
      ("params", PyVal.dict [])]) = ⟨PRINTER, 0, Option.none⟩ :=
  process_event_other_method_noop PRINTER
    (PyVal.dict [("method", PyVal.str "zchange"), ("params", PyVal.dict [])])
    (PyVal.str "zchange") rfl rfl rfl rfl

/-- A value that passes an `== "s"` comparison is the string `s`. -/
lemma isStr_eq {m : PyVal} {s : String} (h : isStr m s = true) :
    m = PyVal.str s := by
  cases m <;> simp_all [isStr]

/-- When every registered session's send succeeds, `broadcast_message`
delivers to all of them in registry order and raises nothing. -/
lemma broadcast_message_all_ok (clients : List Session) (msg : PyVal)
    (h : ∀ s ∈ clients, s.sendFails = false) :
    broadcast_message clients msg =
      ((clients.map fun s => Action.send s.id msg), Option.none) := by
  induction clients with
  | nil => rfl
  | cons s rest ih =>
    have hs : s.sendFails = false := h s (List.mem_cons_self s rest)
    have hrest := ih fun x hx => h x (List.mem_cons_of_mem s hx)
    simp [broadcast_message, write_message, hs, hrest]

/-- C3 counterexample: a `state` event whose `params.new` is not a valid
`State` value makes `process_event` record no diagnostic and lets a
`ValueError` escape its boundary, contradicting local recovery. -/
theorem process_event_bad_enum_counterexample :
    (process_event PRINTER (stateEvent (PyVal.str "exploded"))).exc =
      Option.some PyErr.valueError ∧
    (process_event PRINTER (stateEvent (PyVal.str "exploded"))).errorLogs = 0 :=
  ⟨rfl, rfl⟩

/-- C3 as amended: on a `state` event whose `params.new` is not a valid
`State` value, the snapshot is left untouched, but the condition is not
recovered locally: `process_event` records no diagnostic and a `ValueError`
escapes it, and the same `ValueError` also escapes the poll-loop tick, whose
only handler catches `TypeError`. -/
theorem process_event_bad_enum_escapes (snap : Snapshot) (n : PyVal)
    (rest : List RawMsg) (h : State.ofVal n = Except.error PyErr.valueError) :
    process_event snap (stateEvent n) = ⟨snap, 0, Option.some PyErr.valueError⟩ ∧
    (process_printer_events [] snap (RawMsg.json (stateEvent n) :: rest)).exc =
      Option.some PyErr.valueError := by
  have hpe : process_event snap (stateEvent n) =
      ⟨snap, 0, Option.some PyErr.valueError⟩ := by
    simp [process_event, process_event_body, stateEvent, getItem, dictLookup, isStr, h]
  refine ⟨hpe, ?_⟩
  simp only [stateEvent] at hpe
  simp [process_printer_events, json_loads, stateEvent, getItem, dictLookup, isStr,
    broadcast_message, hpe]

/-- Witness for the amended C3 at a concrete invalid enum value. -/
theorem process_event_bad_enum_escapes_witness :
    process_event PRINTER (stateEvent (PyVal.str "melting")) =
      ⟨PRINTER, 0, Option.some PyErr.valueError⟩ ∧
    (process_printer_events [] PRINTER [RawMsg.json (stateEvent (PyVal.str "melting"))]).exc =
      Option.some PyErr.valueError :=
  process_event_bad_enum_escapes PRINTER (PyVal.str "melting") [] rfl

/-- C4 counterexample: a non-JSON inbound payload makes the tick let a
`ValueError` escape, and the failure is not logged, contradicting the
log-and-discard claim. -/
theorem tick_decode_error_counterexample :
    (process_printer_events [sess0] PRINTER [RawMsg.notJson]).exc ≠ Option.none ∧
    (process_printer_events [sess0] PRINTER [RawMsg.notJson]).excLogs = 0 := by
  refine ⟨?_, rfl⟩
  simp [process_printer_events, json_loads]

/-- C4 as amended: a non-JSON inbound payload raises a `ValueError` that
escapes the tick uncaught and unlogged (the tick's handler catches only
`TypeError`); the payload is nonetheless consumed and the snapshot is
unchanged. A payload that is not a string raises `TypeError`, which is
caught and logged as one diagnostic, the message likewise discarded. -/
theorem tick_decode_error_escapes (clients : List Session) (snap : Snapshot)
    (rest : List RawMsg) :
    process_printer_events clients snap (RawMsg.notJson :: rest) =
      ⟨snap, rest, [], 0, 0, Option.some PyErr.valueError⟩ ∧
    process_printer_events clients snap (RawMsg.notString :: rest) =
      ⟨snap, rest, [], 0, 1, Option.none⟩ :=
  ⟨rfl, rfl⟩

/-- C7 counterexample: with a dropped session registered before a healthy
one, `broadcast_message` lets the send failure escape and the healthy
session never receives the message, contradicting best-effort delivery. -/
theorem broadcast_failure_counterexample :
    (broadcast_message [sessFail, sess1] (PyVal.str "hello")).2 ≠ Option.none ∧
    Action.send 1 (PyVal.str "hello") ∉
      (broadcast_message [sessFail, sess1] (PyVal.str "hello")).1 := by
  constructor
  · simp [broadcast_message, write_message, sessFail]
  · simp [broadcast_message, write_message, sessFail]

/-- C7 as amended: `broadcast_message` delivers in registry order exactly to
the longest failure-free prefix of the registry — the first failing send
raises out of the loop, so no later session receives the message — and no
exception escapes precisely when every registered session's send succeeds;
the registry itself is never modified by the broadcast. -/
theorem broadcast_delivers_until_first_failure (clients : List Session)
    (msg : PyVal) :
    (broadcast_message clients msg).1 =
      ((clients.takeWhile fun s => !s.sendFails).map fun s => Action.send s.id msg) ∧
    ((broadcast_message clients msg).2 = Option.none ↔
      ∀ s ∈ clients, s.sendFails = false) := by
  induction clients with
  | nil => simp [broadcast_message]
  | cons s rest ih =>
    cases hs : s.sendFails with
    | true => simp [broadcast_message, write_message, hs, List.takeWhile_cons]
    | false => simp [broadcast_message, write_message, hs, List.takeWhile_cons, ih]

/-- C8 counterexample: removing the only registered session succeeds, and a
second `on_close` for the same session then raises `ValueError`,
contradicting idempotence. -/
theorem on_close_second_call_counterexample :
    on_close [sess0] sess0 = Except.ok [] ∧
    on_close [] sess0 = Except.error PyErr.valueError :=
  ⟨by simp [on_close, list_remove], rfl⟩

/-- C8 as amended: calling `on_close` for a session that is no longer in the
registry raises `ValueError`; the failed call produces no modified registry,
so the remaining sessions are unaffected. -/
theorem on_close_absent_session_raises (clients : List Session) (s : Session)
    (h : ∀ x ∈ clients, x ≠ s) :
    on_close clients s = Except.error PyErr.valueError := by
  induction clients with
  | nil => rfl
  | cons x rest ih =>
    have hx : x ≠ s := h x (List.mem_cons_self x rest)
    have hrest : on_close rest s = Except.error PyErr.valueError :=
      ih fun y hy => h y (List.mem_cons_of_mem x hy)
    simp only [on_close, list_remove] at hrest ⊢
    simp [hx, hrest]

/-- Witness for the amended C8: removing a session that is not registered
raises `ValueError` while another session is registered. -/
theorem on_close_absent_session_raises_witness :
    on_close [sess1] sess0 = Except.error PyErr.valueError :=
  on_close_absent_session_raises [sess1] sess0 (by decide)

/-- Case analysis on what `process_event` does to the `progress` field: it
is either untouched, or the event was a `progress` event and the field now
holds that event's params wholesale. -/
lemma process_event_progress_cases (snap : Snapshot) (e : PyVal) :
    (process_event snap e).printer.progress = snap.progress ∨
    ∃ ps, getItem e "method" = Except.ok (PyVal.str "progress") ∧
      getItem e "params" = Except.ok ps ∧
      (process_event snap e).printer.progress = ps := by
  cases hm : getItem e "method" with
  | error err =>
    left
    cases err <;> simp [process_event, process_event_body, hm]
  | ok m =>
    cases hst : isStr m "state" with
    | true =>
      left
      cases hp : getItem e "params" with
      | error err =>
        cases err <;> simp [process_event, process_event_body, hm, hst, hp]
      | ok ps =>
        cases hn : getItem ps "new" with
        | error err =>
          cases err <;> simp [process_event, process_event_body, hm, hst, hp, hn]
        | ok n =>
          cases hv : State.ofVal n with
          | error err =>
            cases err <;> simp [process_event, process_event_body, hm, hst, hp, hn, hv]
          | ok st => simp [process_event, process_event_body, hm, hst, hp, hn, hv]
    | false =>
      cases htm : isStr m "temp" with
      | true =>
        left
        cases hp : getItem e "params" with
        | error err =>
          cases err <;> simp [process_event, process_event_body, hm, hst, htm, hp]
        | ok ps => simp [process_event, process_event_body, hm, hst, htm, hp]
      | false =>
        cases hpr : isStr m "progress" with
        | true =>
          cases hp : getItem e "params" with
          | error err =>
            left
            cases err <;> simp [process_event, process_event_body, hm, hst, htm, hpr, hp]
          | ok ps =>
            right
            exact ⟨ps, by rw [isStr_eq hpr], rfl,
              by simp [process_event, process_event_body, hm, hst, htm, hpr, hp]⟩
        | false =>
          left
          cases hz : isStr m "zchange" <;>
            simp [process_event, process_event_body, hm, hst, htm, hpr, hz]

/-- C9 counterexample: a single inbound `progress` event carrying
`current = 5, total = 3` is accepted unvalidated, leaving a snapshot that
violates `current ≤ total` while `total > 0`. -/
theorem progress_invariant_counterexample :
    progressOk (process_events PRINTER
      [progressEvent (PyVal.dict [("current", PyVal.int 5), ("total", PyVal.int 3)])]).progress
      = false := by
  simp [process_events, process_event, process_event_body, progressEvent,
    getItem, dictLookup, isStr, progressOk]

/-- C9 as amended: the reducer does not enforce the progress invariant; it
holds after processing a sequence of inbound events provided it holds of the
starting snapshot and every `progress` event in the sequence carries params
already satisfying it, since `progress` params are stored wholesale and no
other event touches the field. -/
theorem progress_invariant_preserved (events : List PyVal) (snap : Snapshot)
    (h0 : progressOk snap.progress = true)
    (h : ∀ e ∈ events, ∀ ps, getItem e "method" = Except.ok (PyVal.str "progress") →
      getItem e "params" = Except.ok ps → progressOk ps = true) :
    progressOk (process_events snap events).progress = true := by
  induction events generalizing snap with
  | nil => exact h0
  | cons e rest ih =>
    show progressOk (process_events (process_event snap e).printer rest).progress = true
    apply ih
    · rcases process_event_progress_cases snap e with hsame | ⟨ps, hmethod, hparams, heq⟩
      · rw [hsame]; exact h0
      · rw [heq]; exact h e (List.mem_cons_self e rest) ps hmethod hparams
    · exact fun x hx => h x (List.mem_cons_of_mem e hx)

/-- Witness for the amended C9: a healthy `progress` event keeps the
invariant from the initial snapshot. -/
theorem progress_invariant_preserved_witness :
    progressOk (process_events PRINTER
      [progressEvent (PyVal.dict [("current", PyVal.int 2), ("total", PyVal.int 7)])]).progress
      = true := by
  apply progress_invariant_preserved
  · rfl
  · intro e he ps hmethod hparams
    simp only [List.mem_singleton] at he
    subst he
    simp only [progressEvent, getItem, dictLookup] at hparams
    simp only [reduceIte] at hparams
    cases hparams
    rfl

/-- C5 counterexample: with a dropped session registered, a `temp` event is
dequeued, the broadcast raises before delivering anything, and the reducer
is never invoked (the trace is empty and the snapshot unchanged) — the
event is not passed to the State Reducer unconditionally. -/
theorem tick_send_failure_counterexample :
    (process_printer_events [sessFail] PRINTER
      [RawMsg.json (tempEvent (PyVal.dict [("bed", PyVal.int 42)]))]).trace = [] ∧
    (process_printer_events [sessFail] PRINTER
      [RawMsg.json (tempEvent (PyVal.dict [("bed", PyVal.int 42)]))]).printer = PRINTER ∧
    (process_printer_events [sessFail] PRINTER
      [RawMsg.json (tempEvent (PyVal.dict [("bed", PyVal.int 42)]))]).exc =
      Option.some PyErr.otherError :=
  ⟨rfl, rfl, rfl⟩

/-- C5 as amended: on a tick with a non-empty inbound channel exactly one
message is dequeued; a `log` event is never broadcast nor passed to the
reducer (every trace action is a sink forward), and when its params carry
`level` and `msg` the tick's whole trace is exactly the one forward of that
pair to the logging sink; for every other method the event is broadcast to
the sessions in registry order and then passed to the reducer, in that
order, provided every session's send succeeds (a failing send aborts the
tick before the reducer runs). -/
theorem tick_routing (clients : List Session) (snap : Snapshot)
    (rest : List RawMsg) (event m : PyVal)
    (hm : getItem event "method" = Except.ok m)
    (hok : ∀ s ∈ clients, s.sendFails = false) :
    (process_printer_events clients snap (RawMsg.json event :: rest)).queue = rest ∧
    (isStr m "log" = true →
      (∀ a ∈ (process_printer_events clients snap (RawMsg.json event :: rest)).trace,
        Action.isSink a = true) ∧
      ∀ ps lv msg, getItem event "params" = Except.ok ps →
        getItem ps "level" = Except.ok lv → getItem ps "msg" = Except.ok msg →
        (process_printer_events clients snap (RawMsg.json event :: rest)).trace =
          [Action.sink lv msg]) ∧
    (isStr m "log" = false →
      (process_printer_events clients snap (RawMsg.json event :: rest)).trace =
        (clients.map fun s => Action.send s.id event) ++ [Action.reduce event]) := by
  cases hl : isStr m "log" with
  | true =>
    have hfwd : ∀ ps lv msg, getItem event "params" = Except.ok ps →
        getItem ps "level" = Except.ok lv → getItem ps "msg" = Except.ok msg →
        (process_printer_events clients snap (RawMsg.json event :: rest)).trace =
          [Action.sink lv msg] := by
      intro ps lv msg hp hlv hmsg
      simp only [process_printer_events, json_loads, hm, hl, if_true, hp, hlv, hmsg]
    have key : (process_printer_events clients snap (RawMsg.json event :: rest)).queue = rest ∧
        ∀ a ∈ (process_printer_events clients snap (RawMsg.json event :: rest)).trace,
          Action.isSink a = true := by
      simp only [process_printer_events, json_loads, hm, hl, if_true]
      cases hp : getItem event "params" with
      | error err => cases err <;> simp [hp]
      | ok ps =>
        cases hlv : getItem ps "level" with
        | error err => cases err <;> simp [hp, hlv]
        | ok lv =>
          cases hmsg : getItem ps "msg" with
          | error err => cases err <;> simp [hp, hlv, hmsg]
          | ok msg => simp [hp, hlv, hmsg, Action.isSink]
    exact ⟨key.1, fun _ => ⟨key.2, hfwd⟩, fun hf => absurd hf (by decide)⟩
  | false =>
    have hb := broadcast_message_all_ok clients event hok
    have key : (process_printer_events clients snap (RawMsg.json event :: rest)).queue = rest ∧
        (process_printer_events clients snap (RawMsg.json event :: rest)).trace =
          (clients.map fun s => Action.send s.id event) ++ [Action.reduce event] := by
      simp only [process_printer_events, json_loads, hm, hl, hb]
      cases hex : (process_event snap event).exc with
      | none => simp [hex]
      | some err => cases err <;> simp [hex]
    exact ⟨key.1, fun hf => absurd hf (by decide), fun _ => key.2⟩

/-- Witness for the amended C5 at two concrete ticks: a well-formed `log`
event is dequeued and forwarded only to the logging sink (exactly one sink
action, no send, no reduce), and a `temp` event with two healthy sessions is
dequeued, delivered to both, then reduced. -/
theorem tick_routing_witness :
    ((process_printer_events [sess0] PRINTER [RawMsg.json logEvent]).queue = [] ∧
      (process_printer_events [sess0] PRINTER [RawMsg.json logEvent]).trace =
        [Action.sink (PyVal.int 20) (PyVal.str "homing")]) ∧
    (process_printer_events [sess0, sess1] PRINTER
      [RawMsg.json (tempEvent (PyVal.dict []))]).trace =
      ([sess0, sess1].map fun s => Action.send s.id (tempEvent (PyVal.dict []))) ++
        [Action.reduce (tempEvent (PyVal.dict []))] := by
  refine ⟨⟨?_, ?_⟩, ?_⟩
  · exact (tick_routing [sess0] PRINTER [] logEvent (PyVal.str "log")
      rfl (by decide)).1
  · exact ((tick_routing [sess0] PRINTER [] logEvent (PyVal.str "log")
      rfl (by decide)).2.1 rfl).2
      (PyVal.dict [("level", PyVal.int 20), ("msg", PyVal.str "homing")])
      (PyVal.int 20) (PyVal.str "homing") rfl rfl rfl
  · exact (tick_routing [sess0, sess1] PRINTER [] (tempEvent (PyVal.dict []))
      (PyVal.str "temp") rfl (by decide)).2.2 rfl

end Opengb
